import Mathlib

/-!
Shallow embedding of the skytalons cloaking proxy (src/index.js, with the
earlier variant in src/unnamed/part_000): client-IP resolution, the
per-IP reputation/rate cache, the VPN lookup, the four-check guard
middleware, the outbound user-agent substitution, and the HTML image
extraction of the main endpoint.  Strings are modelled as Lean strings
(ASCII case folding), timestamps as Int milliseconds, and the two
external effects (the reputation HTTP call and the wall clock) as
explicit parameters.
-/

namespace Skytalons

/-! ### JavaScript string primitives, modelled over lists of characters -/

/-- JS whitespace class (the chars matched by `\s` and removed by `trim`). -/
def isJsSpace (c : Char) : Bool :=
  c.toNat = 9 || c.toNat = 10 || c.toNat = 11 || c.toNat = 12 || c.toNat = 13 ||
  c.toNat = 32 || c.toNat = 0xa0 || c.toNat = 0x1680 ||
  (0x2000 ≤ c.toNat && c.toNat ≤ 0x200a) || c.toNat = 0x2028 || c.toNat = 0x2029 ||
  c.toNat = 0x202f || c.toNat = 0x205f || c.toNat = 0x3000 || c.toNat = 0xfeff

/-- Does `p` occur as a prefix of `s`? -/
def hasPrefixL : List Char → List Char → Bool
  | [], _ => true
  | _ :: _, [] => false
  | p :: ps, c :: cs => p == c && hasPrefixL ps cs

/-- Scan every suffix of a list for a predicate. -/
def scanList (p : List Char → Bool) : List Char → Bool
  | [] => p []
  | c :: rest => p (c :: rest) || scanList p rest

/-- `containsSubstr s pat`: JS `s.includes(pat)` / regex substring test. -/
def containsSubstr (s pat : String) : Bool :=
  scanList (hasPrefixL pat.data) s.data

/-- JS `String.prototype.trim` (also used for trimming header elements). -/
def jsTrim (s : String) : String :=
  ⟨((s.data.dropWhile isJsSpace).reverse.dropWhile isJsSpace).reverse⟩

/-- JS `s.split(",")` (note `"".split(",") = [""]`). -/
def splitCommaAux : List Char → List Char → List (List Char)
  | [], acc => [acc.reverse]
  | c :: rest, acc =>
      if c == ',' then acc.reverse :: splitCommaAux rest []
      else splitCommaAux rest (c :: acc)

def jsSplitComma (s : String) : List String :=
  (splitCommaAux s.data []).map fun l => ⟨l⟩

/-- ASCII model of JS `String.prototype.toLowerCase`. -/
def toLowerStr (s : String) : String :=
  ⟨s.data.map Char.toLower⟩

/-- Search for `pat` at positions `≥ i`, returning the match position. -/
def indexOfFromAux (pat : List Char) : List Char → Nat → Option Nat
  | [], i => if hasPrefixL pat [] then some i else none
  | c :: rest, i =>
      if hasPrefixL pat (c :: rest) then some i
      else indexOfFromAux pat rest (i + 1)

/-- JS `s.indexOf(pat, fromIndex)`: `-1` when absent. -/
def jsIndexOf (s pat : String) (fromI : Int) : Int :=
  let start := (max fromI 0).toNat
  match indexOfFromAux pat.data (s.data.drop start) start with
  | some i => (i : Int)
  | none => -1

/-- JS `s[i]` character access (`none` models `undefined`). -/
def jsCharAt (s : String) (i : Int) : Option Char :=
  if i < 0 then none else (s.data.drop i.toNat).head?

/-- JS `s.substring(a, b)`: clamps both bounds to `[0, length]` and swaps
them when `a > b` — so a `-1` end index yields a prefix of `s`. -/
def jsSubstring (s : String) (a b : Int) : String :=
  let len : Int := (s.data.length : Int)
  let a1 := min (max a 0) len
  let b1 := min (max b 0) len
  ⟨(s.data.drop (min a1 b1).toNat).take ((max a1 b1).toNat - (min a1 b1).toNat)⟩

/-! ### Client IP resolution (`normalizeIp`, `detectClientIp`) -/

/-- `String(ip).replace(/^::ffff:/, "").trim()`, with `""` for falsy input. -/
def normalizeIp (ip : String) : String :=
  if ip == "" then ""
  else jsTrim (if hasPrefixL "::ffff:".data ip.data then ⟨ip.data.drop 7⟩ else ip)

/-- The request fields the guard and the endpoint read.  `none` models an
absent header / absent platform value. -/
structure Request where
  xff : Option String
  reqIp : Option String
  remoteAddress : Option String
  userAgent : Option String

/-- `detectClientIp(req)`: first element of `x-forwarded-for` when it trims
non-empty, else `req.ip`, else the socket remote address. -/
def detectClientIp (req : Request) : String :=
  let fromXff : Option String :=
    match req.xff with
    | some xff =>
        if xff == "" then none
        else
          let first := jsTrim ((jsSplitComma xff).headD "")
          if first == "" then none else some (normalizeIp first)
    | none => none
  match fromXff with
  | some v => v
  | none =>
      match req.reqIp with
      | some rip =>
          if rip == "" then normalizeIp (req.remoteAddress.getD "") else normalizeIp rip
      | none => normalizeIp (req.remoteAddress.getD "")

/-! ### Reputation cache and VPN lookup (`ipCache`, `isProxyOrVPN`) -/

/-- One `ipCache` entry; `isProxy = none` models an object without the
`isProxy` field (the `"isProxy" in cached` test). -/
structure CacheEntry where
  isProxy : Option Bool
  last : Int
  count : Nat
deriving DecidableEq

def Cache : Type := String → Option CacheEntry

def Cache.set (c : Cache) (k : String) (v : CacheEntry) : Cache :=
  fun q => if q = k then some v else c q

def emptyCache : Cache := fun _ => none

/-- The `data[ip]` object of the proxycheck.io response. -/
structure NetInfo where
  proxy : Option String
  type : Option String

/-- Outcome of the external fetch for one IP: outer `none` is a
network/parse failure (the `catch` branch), `some none` a parsed body with
no object for the IP, `some (some info)` the parsed per-IP object. -/
def NetOracle : Type := Option (Option NetInfo)

/-- `info?.proxy === "yes" || info?.type === "VPN" || info?.type === "Hosting"`,
with `false` on the catch path. -/
def evalNet : NetOracle → Bool
  | none => false
  | some none => false
  | some (some info) =>
      info.proxy == some "yes" || info.type == some "VPN" || info.type == some "Hosting"

structure LookupResult where
  result : Bool
  cache : Cache
  networkCalled : Bool

/-- `isProxyOrVPN(ip)`: empty input is false; an entry that already has the
`isProxy` field is returned as-is without a network call; otherwise the
external verdict is computed and cached with `last = now` and the prior
`count` (default 0). -/
def isProxyOrVPN (ip : String) (c : Cache) (net : NetOracle) (now : Int) : LookupResult :=
  if ip == "" then ⟨false, c, false⟩
  else
    match c ip with
    | some e =>
        match e.isProxy with
        | some b => ⟨b, c, false⟩
        | none =>
            let r := evalNet net
            ⟨r, c.set ip ⟨some r, now, e.count⟩, true⟩
    | none =>
        let r := evalNet net
        ⟨r, c.set ip ⟨some r, now, 0⟩, true⟩

/-! ### The four guard checks' pattern tests -/

/-- `/render\s?bot/i` at the head of a suffix. -/
def renderBotAt (s : List Char) : Bool :=
  hasPrefixL "render".data s &&
    (hasPrefixL "bot".data (s.drop 6) ||
      (match s.drop 6 with
       | c :: r2 => isJsSpace c && hasPrefixL "bot".data r2
       | [] => false))

def renderBotTest (s : String) : Bool :=
  scanList renderBotAt s.data

/-- Regex word character (`\w`). -/
def isWordChar (c : Char) : Bool :=
  ('a' ≤ c && c ≤ 'z') || ('A' ≤ c && c ≤ 'Z') || ('0' ≤ c && c ≤ '9') || c == '_'

/-- `/\bemulator\b/` at the head of a suffix, given the previous char. -/
def emulatorBoundAt (prev : Option Char) (s : List Char) : Bool :=
  (match prev with | some c => !isWordChar c | none => true) &&
  hasPrefixL "emulator".data s &&
  (match s.drop 8 with | c :: _ => !isWordChar c | [] => true)

def emulatorWordScan : Option Char → List Char → Bool
  | _, [] => false
  | prev, c :: rest => emulatorBoundAt prev (c :: rest) || emulatorWordScan (some c) rest

/-- `/\bemulator\b/i` test. -/
def emulatorWordTest (s : String) : Bool :=
  emulatorWordScan none s.data

/-- The `botPatterns` array, in source order (the user-agent is already
lowercased when tested, so the `/i` patterns are plain substring tests). -/
def botPatterns : List (String → Bool) :=
  [ (containsSubstr · "bot"), (containsSubstr · "spider"), (containsSubstr · "crawl"),
    (containsSubstr · "headless"), renderBotTest, (containsSubstr · "monitor"),
    (containsSubstr · "curl"), (containsSubstr · "wget"), (containsSubstr · "pingdom"),
    (containsSubstr · "uptime"), (containsSubstr · "facebookexternalhit"),
    (containsSubstr · "python-requests"), (containsSubstr · "node-fetch"),
    (containsSubstr · "httpclient"), (containsSubstr · "postmanruntime"),
    (containsSubstr · "cf-network"), (containsSubstr · "datadog"),
    (containsSubstr · "newrelic") ]

def botPatternTest (ua : String) : Bool :=
  botPatterns.any fun p => p ua

/-- The `strongEmu` array, in source order. -/
def strongEmuPatterns : List (String → Bool) :=
  [ (containsSubstr · "sdk_gphone"), (containsSubstr · "google_sdk"),
    (containsSubstr · "android sdk built for"), (containsSubstr · "genymotion"),
    (containsSubstr · "bluestacks"),
    (fun s => containsSubstr s "noxplayer" || containsSubstr s "nox"),
    (containsSubstr · "ldplayer"), (containsSubstr · "memu"), (containsSubstr · "mumu"),
    (fun s => containsSubstr s "virtualbox" || containsSubstr s "vbox"),
    emulatorWordTest,
    (fun s => containsSubstr s "archon" || containsSubstr s "arc hon") ]

def strongEmuTest (ua : String) : Bool :=
  strongEmuPatterns.any fun p => p ua

/-- `/(x86_64|i686|amd64)/i` on the lowercased user-agent. -/
def weakX86Test (ua : String) : Bool :=
  containsSubstr ua "x86_64" || containsSubstr ua "i686" || containsSubstr ua "amd64"

/-- The `knownRealBrands` alternation. -/
def knownRealBrandsTest (ua : String) : Bool :=
  containsSubstr ua "pixel" || containsSubstr ua "samsung" || containsSubstr ua "sm-" ||
  containsSubstr ua "huawei" || containsSubstr ua "honor" || containsSubstr ua "xiaomi" ||
  containsSubstr ua "redmi" || containsSubstr ua "oneplus" || containsSubstr ua "oppo" ||
  containsSubstr ua "vivo" || containsSubstr ua "sony" || containsSubstr ua "xperia" ||
  containsSubstr ua "motorola" || containsSubstr ua "moto" || containsSubstr ua "nokia" ||
  containsSubstr ua "nothing" || containsSubstr ua "realme" || containsSubstr ua "lenovo" ||
  containsSubstr ua "tecno" || containsSubstr ua "infinix"

/-! ### The guard middleware -/

/-- One `logFlag` call: the reason tag and the `IP=`/`UA=` values of the line. -/
structure LogEntry where
  tag : String
  ip : String
  ua : String
deriving DecidableEq

/-- The observable outcome of one `guard` run: the per-request verdict
fields, the `logFlag` lines it emitted (in order), the cache afterwards,
and whether the reputation service was contacted. -/
structure GuardResult where
  suspicious : Bool
  reason : String
  logs : List LogEntry
  cache : Cache
  networkCalled : Bool

/-- `{ last: 0, count: 0, isProxy: false }`, the rate-limit default entry. -/
def defaultEntry : CacheEntry := ⟨some false, 0, 0⟩

/-- The `guard` middleware of src/index.js lines 94-182: four ordered
checks over one request, sequentially updating the verdict, the flag log
and the ip cache.  `now` stands for `Date.now()` during this request. -/
def guard (req : Request) (c : Cache) (net : NetOracle) (now : Int) : GuardResult :=
  let ip := detectClientIp req
  let uaRaw := req.userAgent.getD ""
  let ua := toLowerStr uaRaw
  -- 1) bots
  let botFires := ua == "" || botPatternTest ua
  let susp1 := botFires
  let reason1 := if botFires then "bot" else ""
  let logs1 : List LogEntry := if botFires then [⟨"BOT->WHITE", ip, uaRaw⟩] else []
  -- 2) vpn / proxy
  let lk := isProxyOrVPN ip c net now
  let vpnFires := lk.result && !susp1
  let susp2 := susp1 || vpnFires
  let reason2 := if vpnFires then "vpn_proxy" else reason1
  let logs2 := if vpnFires then logs1 ++ [⟨"VPN/PROXY->WHITE", ip, uaRaw⟩] else logs1
  -- 3) emulators
  let isAndroid := containsSubstr ua "android"
  let matchesStrong := strongEmuTest ua
  let matchesWeakCombo := isAndroid && weakX86Test ua && !knownRealBrandsTest ua
  let emuFires := (matchesStrong || matchesWeakCombo) && !susp2
  let susp3 := susp2 || emuFires
  let reason3 := if emuFires then "emulator" else reason2
  let logs3 := if emuFires then logs2 ++ [⟨"EMULATOR->WHITE", ip, uaRaw⟩] else logs2
  -- 4) rate limit
  let cached := (lk.cache ip).getD defaultEntry
  let newCount := if now - cached.last < 2000 then cached.count + 1 else 1
  let c2 := lk.cache.set ip ⟨cached.isProxy, now, newCount⟩
  let rateFires := decide (newCount > 5) && !susp3
  let susp4 := susp3 || rateFires
  let reason4 := if rateFires then "rate_limit" else reason3
  let logs4 := if rateFires then logs3 ++ [⟨"RATE_LIMIT->WHITE", ip, uaRaw⟩] else logs3
  ⟨susp4, reason4, logs4, c2, lk.networkCalled⟩

/-! ### Stand-alone forms of the four check conditions -/

/-- Condition of check 1 (bot): empty or bot-matching user-agent. -/
def guardBotCond (req : Request) : Bool :=
  let ua := toLowerStr (req.userAgent.getD "")
  ua == "" || botPatternTest ua

/-- Condition of check 2 (vpn/proxy): the reputation lookup's verdict. -/
def guardVpnCond (req : Request) (c : Cache) (net : NetOracle) (now : Int) : Bool :=
  (isProxyOrVPN (detectClientIp req) c net now).result

/-- Condition of check 3 (emulator): strong signature or weak combo. -/
def guardEmuCond (req : Request) : Bool :=
  let ua := toLowerStr (req.userAgent.getD "")
  strongEmuTest ua ||
    (containsSubstr ua "android" && weakX86Test ua && !knownRealBrandsTest ua)

/-- Condition of check 4 (rate limit): the updated count exceeds 5, where
the update reads the cache as the lookup of check 2 left it. -/
def guardRateCond (req : Request) (c : Cache) (net : NetOracle) (now : Int) : Bool :=
  let ip := detectClientIp req
  let e := ((isProxyOrVPN ip c net now).cache ip).getD defaultEntry
  decide ((if now - e.last < 2000 then e.count + 1 else 1) > 5)

/-- The log tag `logFlag` receives for each verdict reason. -/
def tagOfReason : String → String
  | "bot" => "BOT->WHITE"
  | "vpn_proxy" => "VPN/PROXY->WHITE"
  | "emulator" => "EMULATOR->WHITE"
  | "rate_limit" => "RATE_LIMIT->WHITE"
  | _ => ""

/-! ### Identity substitution and image extraction of the main endpoint -/

/-- The `uaToSend` ternary chain of the endpoint (src/index.js 195-200):
outbound user-agent as a function of the verdict, the configured
`whiteUaMode` and the original user-agent. -/
def uaToSend (suspicious : Bool) (whiteUaMode : String) (origUA : String) : String :=
  if suspicious && whiteUaMode == "empty" then ""
  else if suspicious then (if origUA == "" then "bot" else origUA ++ " bot")
  else origUA

/-- `(process.env.WHITE_UA_MODE || "suffix").toLowerCase()`. -/
def whiteUaModeOf (env : Option String) : String :=
  toLowerStr (match env with
    | some s => if s == "" then "suffix" else s
    | none => "suffix")

/-- `/^https?:\/\//i` on the extracted image URL. -/
def isAbsoluteHttp (s : String) : Bool :=
  hasPrefixL "http://".data (toLowerStr s).data ||
    hasPrefixL "https://".data (toLowerStr s).data

def LANDER_NAME : String := "skytalons"

/-- Image-src extraction of the endpoint (src/index.js 262-268): find the
first `<img`, the next `src=`, read the quote character after it, and take
the substring up to the next occurrence of that character.  An absent quote
character is JS `undefined`, which `indexOf` coerces to the string
`"undefined"`. -/
def extractImageUrl (html : String) : String :=
  let imgIndex := jsIndexOf html "<img" 0
  if imgIndex == -1 then ""
  else
    let srcIndex := jsIndexOf html "src=" imgIndex
    if srcIndex == -1 then ""
    else
      let startQuote := jsCharAt html (srcIndex + 4)
      let endQuote :=
        match startQuote with
        | some q => jsIndexOf html ⟨[q]⟩ (srcIndex + 5)
        | none => jsIndexOf html "undefined" (srcIndex + 5)
      jsTrim (jsSubstring html (srcIndex + 5) endQuote)

/-- The relative-URL rewrite (src/index.js 271-281): a non-empty extracted
value that is not already absolute is prefixed with
`<origin>/lander/<LANDER_NAME>/` after stripping leading slashes. -/
def rewriteImageUrl (origin imageUrl : String) : String :=
  if !(imageUrl == "") && !isAbsoluteHttp imageUrl then
    origin ++ "/lander/" ++ LANDER_NAME ++ "/" ++ ⟨imageUrl.data.dropWhile (· == '/')⟩
  else imageUrl

/-- The endpoint's HTML branch (src/index.js 260-288): the
`(image_url, site_url)` pair returned when the upstream reply was not a
redirect, given the origin of the upstream base URL. -/
def htmlBranchResponse (origin html : String) : String × String :=
  let imageUrl := rewriteImageUrl origin (extractImageUrl html)
  (if imageUrl == "" then "" else imageUrl, "")

/-! ### Concrete requests and caches used to instantiate the theorems -/

/-- A genuine-looking request: no forwarding header, platform IP 9.9.9.9,
a user-agent matching no bot/emulator signature. -/
def reqPlain : Request := ⟨none, some "9.9.9.9", none, some "safari"⟩

/-- A request whose user-agent matches the `curl` bot pattern. -/
def reqBot : Request := ⟨none, some "9.9.9.9", none, some "curl/7.88"⟩

/-- A cache whose entry for 9.9.9.9 is already flagged as proxy. -/
def cacheProxyTrue : Cache := emptyCache.set "9.9.9.9" ⟨some true, 0, 0⟩

/-- A cache whose entry for 9.9.9.9 has count 3 at time 0. -/
def cacheCount3 : Cache := emptyCache.set "9.9.9.9" ⟨some false, 0, 3⟩

/-- One guard invocation viewed as a cache transformer. -/
def guardStep (req : Request) (net : NetOracle) (t : Int) (c : Cache) : Cache :=
  (guard req c net t).cache

/-- The rate-limit count recorded in an optional cache entry. -/
def entryCount (o : Option CacheEntry) : Nat := (o.getD defaultEntry).count

/-! ## Theorems -/

/-- Helper: a lookup for a non-empty IP whose entry already has `isProxy`
returns the cached flag, contacts no network, and leaves the cache as is. -/
theorem isProxyOrVPN_memo_eq (ip : String) (c : Cache) (net : NetOracle) (now : Int)
    (e : CacheEntry) (b : Bool) (hip : ip ≠ "") (hc : c ip = some e)
    (hb : e.isProxy = some b) :
    isProxyOrVPN ip c net now = ⟨b, c, false⟩ := by
  simp [isProxyOrVPN, hip, hc, hb]

/-- Helper: after `guard`, the entry for the resolved IP holds the
post-lookup `isProxy`, `last = now`, and the updated count. -/
theorem guard_cache_at_ip (req : Request) (c : Cache) (net : NetOracle) (now : Int) :
    (guard req c net now).cache (detectClientIp req) =
      some ⟨(((isProxyOrVPN (detectClientIp req) c net now).cache
                (detectClientIp req)).getD defaultEntry).isProxy,
            now,
            if now - (((isProxyOrVPN (detectClientIp req) c net now).cache
                (detectClientIp req)).getD defaultEntry).last < 2000
            then (((isProxyOrVPN (detectClientIp req) c net now).cache
                (detectClientIp req)).getD defaultEntry).count + 1
            else 1⟩ := by
  simp [guard, Cache.set]

/-- Helper: one guard step on an IP whose entry is memoized. -/
theorem guard_step_memo (req : Request) (c : Cache) (net : NetOracle) (now : Int)
    (b : Bool) (l : Int) (k : Nat)
    (hip : detectClientIp req ≠ "")
    (hc : c (detectClientIp req) = some ⟨some b, l, k⟩) :
    (guard req c net now).cache (detectClientIp req) =
      some ⟨some b, now, if now - l < 2000 then k + 1 else 1⟩ := by
  rw [guard_cache_at_ip,
    isProxyOrVPN_memo_eq (detectClientIp req) c net now ⟨some b, l, k⟩ b hip hc rfl]
  simp [hc]

/-- Helper: whatever the starting cache, one guard step leaves the resolved
IP with a memoized `isProxy`, `last = now` and a count of at least 1. -/
theorem guard_first_step (req : Request) (c : Cache) (net : NetOracle) (now : Int)
    (hip : detectClientIp req ≠ "") :
    ∃ b k, (guard req c net now).cache (detectClientIp req) =
      some ⟨some b, now, k⟩ ∧ 1 ≤ k := by
  rw [guard_cache_at_ip]
  rcases hc : c (detectClientIp req) with _ | e
  · refine ⟨evalNet net, 1, ?_, le_refl 1⟩
    simp [isProxyOrVPN, hip, hc, Cache.set]
  · rcases hb : e.isProxy with _ | b
    · refine ⟨evalNet net, e.count + 1, ?_, Nat.le_add_left 1 e.count⟩
      simp [isProxyOrVPN, hip, hc, hb, Cache.set]
    · refine ⟨b, if now - e.last < 2000 then e.count + 1 else 1, ?_, ?_⟩
      · rw [isProxyOrVPN_memo_eq (detectClientIp req) c net now e b hip hc hb]
        simp [hc, hb]
      · split
        · exact Nat.le_add_left 1 e.count
        · exact le_refl 1

/-- Helper: the guard verdict is exactly the first true check condition, and
the request is suspicious exactly when some check condition is true. -/
theorem guard_verdict_spec (req : Request) (c : Cache) (net : NetOracle) (now : Int) :
    (guard req c net now).reason =
      (if guardBotCond req then "bot"
       else if guardVpnCond req c net now then "vpn_proxy"
       else if guardEmuCond req then "emulator"
       else if guardRateCond req c net now then "rate_limit"
       else "") ∧
    (guard req c net now).suspicious =
      (guardBotCond req || guardVpnCond req c net now ||
        guardEmuCond req || guardRateCond req c net now) := by
  by_cases hb : guardBotCond req = true <;>
  by_cases hv : guardVpnCond req c net now = true <;>
  by_cases he : guardEmuCond req = true <;>
  by_cases hr : guardRateCond req c net now = true <;>
  simp only [Bool.not_eq_true] at hb hv he hr <;>
  simp only [guardBotCond, guardVpnCond, guardEmuCond, guardRateCond] at hb hv he hr <;>
  constructor <;>
  simp [guard, guardBotCond, guardVpnCond, guardEmuCond, guardRateCond, hb, hv, he, hr]

/-- C1: for every request, the verdict's reason is the reason of the first
check, in the fixed order bot, vpn_proxy, emulator, rate_limit, whose
condition holds; when no condition holds the verdict is not suspicious with
the empty reason (the encoding of `none`), and a later matching check never
overrides an earlier reason — the reason is insensitive to the later
conditions once an earlier one is true. -/
theorem guard_first_match (req : Request) (c : Cache) (net : NetOracle) (now : Int) :
    (guard req c net now).reason =
      (if guardBotCond req then "bot"
       else if guardVpnCond req c net now then "vpn_proxy"
       else if guardEmuCond req then "emulator"
       else if guardRateCond req c net now then "rate_limit"
       else "") ∧
    (guard req c net now).suspicious =
      (guardBotCond req || guardVpnCond req c net now ||
        guardEmuCond req || guardRateCond req c net now) :=
  guard_verdict_spec req c net now

/-- C2 (amended): a check writes its flag-log line only when it matches and
no earlier check has already set the verdict, so each request emits exactly
one log line — tagged with the verdict's reason — when it is flagged, and
none otherwise. -/
theorem guard_logs_single (req : Request) (c : Cache) (net : NetOracle) (now : Int) :
    (guard req c net now).logs =
      (if (guard req c net now).suspicious then
        [⟨tagOfReason (guard req c net now).reason,
          detectClientIp req, req.userAgent.getD ""⟩]
       else []) := by
  by_cases hb : guardBotCond req = true <;>
  by_cases hv : guardVpnCond req c net now = true <;>
  by_cases he : guardEmuCond req = true <;>
  by_cases hr : guardRateCond req c net now = true <;>
  simp only [Bool.not_eq_true] at hb hv he hr <;>
  simp only [guardBotCond, guardVpnCond, guardEmuCond, guardRateCond] at hb hv he hr <;>
  simp [guard, tagOfReason, hb, hv, he, hr]

/-- C2 counterexample: a request matching both the bot check and the
VPN/proxy check (curl user-agent, cached proxy flag) produces only the
bot-tagged log line — no vpn_proxy-tagged line is written, although the
VPN/proxy condition is true. -/
theorem guard_logs_no_vpn_line_cex :
    guardBotCond reqBot = true ∧
    guardVpnCond reqBot cacheProxyTrue none 3000 = true ∧
    (guard reqBot cacheProxyTrue none 3000).logs =
      [⟨"BOT->WHITE", "9.9.9.9", "curl/7.88"⟩] ∧
    ((guard reqBot cacheProxyTrue none 3000).logs.all
      fun e => e.tag ≠ "VPN/PROXY->WHITE") = true := by
  refine ⟨by decide, by decide, by decide, by decide⟩

/-- C3: across six requests from the same resolved IP, each arriving
strictly within 2000 ms of the previous one and with no other IP activity
in between, the recorded rate-limit count strictly increases at every
step, and on the sixth request the count exceeds 5, so that request is
flagged suspicious with reason rate_limit provided the bot, vpn_proxy and
emulator checks do not flag it. -/
theorem guard_rate_limit_burst (req : Request) (net : NetOracle) (c0 : Cache)
    (t1 t2 t3 t4 t5 t6 : Int)
    (hip : detectClientIp req ≠ "")
    (h12 : t2 - t1 < 2000) (h23 : t3 - t2 < 2000) (h34 : t4 - t3 < 2000)
    (h45 : t5 - t4 < 2000) (h56 : t6 - t5 < 2000)
    (hbot : guardBotCond req = false) (hemu : guardEmuCond req = false)
    (hvpn : guardVpnCond req
      (guardStep req net t5 (guardStep req net t4 (guardStep req net t3
        (guardStep req net t2 (guardStep req net t1 c0))))) net t6 = false) :
    entryCount (guardStep req net t2 (guardStep req net t1 c0) (detectClientIp req)) >
      entryCount (guardStep req net t1 c0 (detectClientIp req)) ∧
    entryCount (guardStep req net t3 (guardStep req net t2 (guardStep req net t1 c0))
        (detectClientIp req)) >
      entryCount (guardStep req net t2 (guardStep req net t1 c0) (detectClientIp req)) ∧
    entryCount (guardStep req net t4 (guardStep req net t3 (guardStep req net t2
        (guardStep req net t1 c0))) (detectClientIp req)) >
      entryCount (guardStep req net t3 (guardStep req net t2 (guardStep req net t1 c0))
        (detectClientIp req)) ∧
    entryCount (guardStep req net t5 (guardStep req net t4 (guardStep req net t3
        (guardStep req net t2 (guardStep req net t1 c0)))) (detectClientIp req)) >
      entryCount (guardStep req net t4 (guardStep req net t3 (guardStep req net t2
        (guardStep req net t1 c0))) (detectClientIp req)) ∧
    entryCount (guardStep req net t6 (guardStep req net t5 (guardStep req net t4
        (guardStep req net t3 (guardStep req net t2 (guardStep req net t1 c0)))))
        (detectClientIp req)) >
      entryCount (guardStep req net t5 (guardStep req net t4 (guardStep req net t3
        (guardStep req net t2 (guardStep req net t1 c0)))) (detectClientIp req)) ∧
    entryCount (guardStep req net t6 (guardStep req net t5 (guardStep req net t4
        (guardStep req net t3 (guardStep req net t2 (guardStep req net t1 c0)))))
        (detectClientIp req)) > 5 ∧
    (guard req (guardStep req net t5 (guardStep req net t4 (guardStep req net t3
        (guardStep req net t2 (guardStep req net t1 c0))))) net t6).suspicious = true ∧
    (guard req (guardStep req net t5 (guardStep req net t4 (guardStep req net t3
        (guardStep req net t2 (guardStep req net t1 c0))))) net t6).reason
      = "rate_limit" := by
  obtain ⟨b, k, hc0, hk⟩ := guard_first_step req c0 net t1 hip
  have hc1 : guardStep req net t1 c0 (detectClientIp req) =
      some ⟨some b, t1, k⟩ := hc0
  have hc2 : guardStep req net t2 (guardStep req net t1 c0) (detectClientIp req) =
      some ⟨some b, t2, k + 1⟩ := by
    rw [guardStep,
      guard_step_memo req (guardStep req net t1 c0) net t2 b t1 k hip hc1, if_pos h12]
  have hc3 : guardStep req net t3 (guardStep req net t2 (guardStep req net t1 c0))
      (detectClientIp req) = some ⟨some b, t3, k + 2⟩ := by
    rw [guardStep,
      guard_step_memo req (guardStep req net t2 (guardStep req net t1 c0)) net t3 b t2
        (k + 1) hip hc2, if_pos h23]
  have hc4 : guardStep req net t4 (guardStep req net t3 (guardStep req net t2
      (guardStep req net t1 c0))) (detectClientIp req) = some ⟨some b, t4, k + 3⟩ := by
    rw [guardStep,
      guard_step_memo req (guardStep req net t3 (guardStep req net t2
        (guardStep req net t1 c0))) net t4 b t3 (k + 2) hip hc3, if_pos h34]
  have hc5 : guardStep req net t5 (guardStep req net t4 (guardStep req net t3
      (guardStep req net t2 (guardStep req net t1 c0)))) (detectClientIp req) =
      some ⟨some b, t5, k + 4⟩ := by
    rw [guardStep,
      guard_step_memo req (guardStep req net t4 (guardStep req net t3 (guardStep req net t2
        (guardStep req net t1 c0)))) net t5 b t4 (k + 3) hip hc4, if_pos h45]
  have hc6 : guardStep req net t6 (guardStep req net t5 (guardStep req net t4
      (guardStep req net t3 (guardStep req net t2 (guardStep req net t1 c0)))))
      (detectClientIp req) = some ⟨some b, t6, k + 5⟩ := by
    rw [guardStep,
      guard_step_memo req (guardStep req net t5 (guardStep req net t4 (guardStep req net t3
        (guardStep req net t2 (guardStep req net t1 c0))))) net t6 b t5 (k + 4) hip hc5,
      if_pos h56]
  have hrate : guardRateCond req (guardStep req net t5 (guardStep req net t4
      (guardStep req net t3 (guardStep req net t2 (guardStep req net t1 c0)))))
      net t6 = true := by
    rw [guardRateCond,
      isProxyOrVPN_memo_eq (detectClientIp req) _ net t6 ⟨some b, t5, k + 4⟩ b hip hc5 rfl]
    simp only [hc5, Option.getD_some, if_pos h56]
    simp only [decide_eq_true_eq]
    omega
  have hverd := guard_verdict_spec req (guardStep req net t5 (guardStep req net t4
    (guardStep req net t3 (guardStep req net t2 (guardStep req net t1 c0))))) net t6
  rw [hbot, hvpn, hemu, hrate] at hverd
  refine ⟨?_, ?_, ?_, ?_, ?_, ?_, ?_, ?_⟩
  · rw [hc2, hc1]; simp [entryCount]
  · rw [hc3, hc2]; simp [entryCount]
  · rw [hc4, hc3]; simp [entryCount]
  · rw [hc5, hc4]; simp [entryCount]
  · rw [hc6, hc5]; simp [entryCount]
  · rw [hc6]; simp only [entryCount, Option.getD_some]; omega
  · rw [hverd.2]; simp
  · rw [hverd.1]; simp

/-- C3 witness: six requests from 9.9.9.9 at times 0,100,...,500 starting
from the empty cache; the sixth is flagged with reason rate_limit. -/
theorem guard_rate_limit_burst_witness :
    (guard reqPlain (guardStep reqPlain none 400 (guardStep reqPlain none 300
      (guardStep reqPlain none 200 (guardStep reqPlain none 100
        (guardStep reqPlain none 0 emptyCache))))) none 500).reason = "rate_limit" :=
  (guard_rate_limit_burst reqPlain none emptyCache 0 100 200 300 400 500
    (by decide) (by decide) (by decide) (by decide) (by decide) (by decide)
    (by decide) (by decide) (by decide)).2.2.2.2.2.2.2

/-- C4 (amended): the count is incremented exactly when the gap since the
entry's `last` is strictly under 2000 ms and reset to 1 otherwise; in
particular a gap of exactly 2000 ms resets the count to 1 rather than
incrementing it. -/
theorem guard_rate_count_update (req : Request) (c : Cache) (net : NetOracle) (now : Int)
    (b : Bool) (l : Int) (k : Nat)
    (hip : detectClientIp req ≠ "")
    (hc : c (detectClientIp req) = some ⟨some b, l, k⟩) :
    entryCount ((guard req c net now).cache (detectClientIp req)) =
      (if now - l < 2000 then k + 1 else 1) ∧
    (now = l + 2000 → entryCount ((guard req c net now).cache (detectClientIp req)) = 1) := by
  have h := guard_step_memo req c net now b l k hip hc
  constructor
  · rw [h]
    by_cases hlt : now - l < 2000
    · simp [entryCount, hlt]
    · simp [entryCount, hlt]
  · intro hgap
    rw [h]
    have hlt : ¬(now - l < 2000) := by omega
    simp [entryCount, hlt]

/-- C4 counterexample: with a cached count of 3 taken at time 0, a request
at time 2000 (a gap of exactly the 2000 ms threshold) resets the count to
1; the claim demands an increment to 4. -/
theorem guard_rate_exact_gap_cex :
    entryCount ((guard reqPlain cacheCount3 none 2000).cache "9.9.9.9") = 1 ∧
    entryCount ((guard reqPlain cacheCount3 none 2000).cache "9.9.9.9") ≠ 3 + 1 := by
  refine ⟨by decide, by decide⟩

/-- C4 witness: the amended theorem applied at the gap-exactly-2000 input. -/
theorem guard_rate_count_update_witness :
    entryCount ((guard reqPlain cacheCount3 none 2000).cache (detectClientIp reqPlain)) =
      (if (2000 : Int) - 0 < 2000 then 3 + 1 else 1) ∧
    ((2000 : Int) = 0 + 2000 →
      entryCount ((guard reqPlain cacheCount3 none 2000).cache (detectClientIp reqPlain)) = 1) :=
  guard_rate_count_update reqPlain cacheCount3 none 2000 false 0 3 (by decide) (by decide)

/-- C5: a lookup for a non-empty IP whose cache entry already has a boolean
`isProxy` returns that boolean without contacting the reputation service,
and a repeated lookup (any later oracle and time) again returns the same
boolean with no network call.  (The empty string is handled by the
separate empty-input clause, before the cache is consulted.) -/
theorem isProxyOrVPN_memoized (ip : String) (c : Cache) (net net' : NetOracle)
    (now now' : Int) (e : CacheEntry) (b : Bool)
    (hip : ip ≠ "") (hc : c ip = some e) (hb : e.isProxy = some b) :
    (isProxyOrVPN ip c net now).result = b ∧
    (isProxyOrVPN ip c net now).networkCalled = false ∧
    (isProxyOrVPN ip (isProxyOrVPN ip c net now).cache net' now').result = b ∧
    (isProxyOrVPN ip (isProxyOrVPN ip c net now).cache net' now').networkCalled = false := by
  simp [isProxyOrVPN_memo_eq ip c net now e b hip hc hb,
    isProxyOrVPN_memo_eq ip c net' now' e b hip hc hb]

/-- C5 witness: the memoized lookup for 9.9.9.9 returns the cached `true`
twice with no network call, even though the oracle would say otherwise. -/
theorem isProxyOrVPN_memoized_witness :
    (isProxyOrVPN "9.9.9.9" cacheProxyTrue none 77).result = true ∧
    (isProxyOrVPN "9.9.9.9" cacheProxyTrue none 77).networkCalled = false ∧
    (isProxyOrVPN "9.9.9.9"
      (isProxyOrVPN "9.9.9.9" cacheProxyTrue none 77).cache (some none) 99).result = true ∧
    (isProxyOrVPN "9.9.9.9"
      (isProxyOrVPN "9.9.9.9" cacheProxyTrue none 77).cache (some none) 99).networkCalled
      = false :=
  isProxyOrVPN_memoized "9.9.9.9" cacheProxyTrue none (some none) 77 99
    ⟨some true, 0, 0⟩ true (by decide) (by decide) (by decide)

/-- Helper: when the lookup did contact the network, its result is the
oracle's verdict. -/
theorem isProxyOrVPN_called_result (ip : String) (c : Cache) (net : NetOracle) (now : Int)
    (h : (isProxyOrVPN ip c net now).networkCalled = true) :
    (isProxyOrVPN ip c net now).result = evalNet net := by
  by_cases hip : ip = ""
  · simp [isProxyOrVPN, hip] at h
  · rcases hc : c ip with _ | e
    · simp [isProxyOrVPN, hip, hc]
    · rcases hb : e.isProxy with _ | b
      · simp [isProxyOrVPN, hip, hc, hb]
      · rw [isProxyOrVPN_memo_eq ip c net now e b hip hc hb] at h
        exact absurd h (by simp)

/-- C6: the lookup returns false for empty input; when it does reach out to
the reputation service and that call fails (network/parse error), it fails
open to false — totality of the Lean function is the no-throw property —
and a request whose lookup failed is never given the vpn_proxy reason. -/
theorem isProxyOrVPN_fail_open (ip : String) (c : Cache) (net : NetOracle) (now : Int)
    (hcall : (isProxyOrVPN ip c none now).networkCalled = true) :
    (isProxyOrVPN "" c net now).result = false ∧
    (isProxyOrVPN ip c none now).result = false ∧
    ∀ req : Request, (isProxyOrVPN (detectClientIp req) c none now).networkCalled = true →
      (guard req c none now).reason ≠ "vpn_proxy" := by
  refine ⟨by simp [isProxyOrVPN], ?_, ?_⟩
  · rw [isProxyOrVPN_called_result ip c none now hcall]
    rfl
  · intro req hreq
    have hv : guardVpnCond req c none now = false := by
      rw [guardVpnCond, isProxyOrVPN_called_result _ _ _ _ hreq]
      rfl
    have h1 := (guard_verdict_spec req c none now).1
    rw [hv] at h1
    rw [h1]
    by_cases hb : guardBotCond req = true <;>
    by_cases he : guardEmuCond req = true <;>
    by_cases hr : guardRateCond req c none now = true <;>
    simp [hb, he, hr]

/-- C6 witness: empty input and a failed fresh lookup both yield false, and
the plain request with a failed lookup is not flagged vpn_proxy. -/
theorem isProxyOrVPN_fail_open_witness :
    (isProxyOrVPN "" emptyCache (some (some ⟨some "yes", none⟩)) 0).result = false ∧
    (isProxyOrVPN "1.2.3.4" emptyCache none 0).result = false ∧
    (guard reqPlain emptyCache none 0).reason ≠ "vpn_proxy" := by
  have h := isProxyOrVPN_fail_open "1.2.3.4" emptyCache
    (some (some ⟨some "yes", none⟩)) 0 (by decide)
  exact ⟨h.1, h.2.1, h.2.2 reqPlain (by decide)⟩

/-- C7 counterexample: with forwarding header " , 1.2.3.4" (first element
whitespace), the resolver falls back to the platform IP 9.9.9.9 instead of
using the later non-empty element 1.2.3.4. -/
theorem detectClientIp_skips_later_elements_cex :
    detectClientIp ⟨some " , 1.2.3.4", some "9.9.9.9", some "7.7.7.7", some "safari"⟩
      = "9.9.9.9" ∧
    detectClientIp ⟨some " , 1.2.3.4", some "9.9.9.9", some "7.7.7.7", some "safari"⟩
      ≠ "1.2.3.4" := by
  refine ⟨by decide, by decide⟩

/-- C7 (amended): with a non-empty forwarding header, the resolved client
IP is the normalized first element (index 0) of the comma-separated chain
when that element trims non-empty; when it trims empty the resolver
ignores the header entirely — later chain elements are never consulted —
and behaves as if the header were absent, falling back to the platform IP
and then the transport address. -/
theorem detectClientIp_first_element (req : Request) (s : String)
    (hx : req.xff = some s) (hs : s ≠ "") :
    detectClientIp req =
      (if jsTrim ((jsSplitComma s).headD "") = "" then
        detectClientIp ⟨none, req.reqIp, req.remoteAddress, req.userAgent⟩
       else normalizeIp (jsTrim ((jsSplitComma s).headD ""))) := by
  by_cases h : jsTrim ((jsSplitComma s).headD "") = ""
  all_goals
    rw [List.headD_eq_head?] at h
  · simp [detectClientIp, hx, hs, h]
  · simp [detectClientIp, hx, hs, h]

/-- C7 witness: the amended theorem at a two-element chain with a non-empty
first element. -/
theorem detectClientIp_first_element_witness :
    detectClientIp ⟨some "8.8.8.8, 9.9.9.9", some "1.1.1.1", none, some "safari"⟩ =
      (if jsTrim ((jsSplitComma "8.8.8.8, 9.9.9.9").headD "") = "" then
        detectClientIp ⟨none, some "1.1.1.1", none, some "safari"⟩
       else normalizeIp (jsTrim ((jsSplitComma "8.8.8.8, 9.9.9.9").headD ""))) :=
  detectClientIp_first_element
    ⟨some "8.8.8.8, 9.9.9.9", some "1.1.1.1", none, some "safari"⟩
    "8.8.8.8, 9.9.9.9" rfl (by decide)

/-- C8: missing `<img>` and missing `src=` do yield an empty image_url, but
when the closing quote of the `src` value is never found, `indexOf` yields
-1 and JS `substring` swaps/clamps the bounds, so the endpoint returns a
non-empty garbage URL built from a prefix of the document — contradicting
the specified "no image found" treatment of malformed markup. -/
theorem htmlBranch_unclosed_quote_bug :
    htmlBranchResponse "https://origin.skytalonsacademy.lol" "<p>no image</p>" = ("", "") ∧
    htmlBranchResponse "https://origin.skytalonsacademy.lol" "<img alt=y><p>hi</p>"
      = ("", "") ∧
    htmlBranchResponse "https://origin.skytalonsacademy.lol" "<img src=\"x" =
      ("https://origin.skytalonsacademy.lol/lander/skytalons/<img src=\"", "") ∧
    (htmlBranchResponse "https://origin.skytalonsacademy.lol" "<img src=\"x").1 ≠ "" := by
  refine ⟨by decide, by decide, by decide, by decide⟩

/-- C9: the outbound user-agent is the original one for non-suspicious
requests; the empty string for suspicious requests in mode "empty"; and
the original with a literal " bot" suffix (or the literal "bot" when the
original is empty) for suspicious requests in mode "suffix". -/
theorem uaToSend_spec (mode origUA : String) :
    uaToSend false mode origUA = origUA ∧
    uaToSend true "empty" origUA = "" ∧
    uaToSend true "suffix" origUA = (if origUA == "" then "bot" else origUA ++ " bot") := by
  have hse : (("suffix" : String) == "empty") = false := by decide
  refine ⟨rfl, rfl, ?_⟩
  simp [uaToSend, hse]

/-- C10: a lookup for an IP whose entry already has the `isProxy` field is
a pure read — every key of the cache (the queried IP included, with its
`isProxy`, `last` and `count` fields) is left exactly as it was. -/
theorem isProxyOrVPN_memoized_frame (ip : String) (c : Cache) (net : NetOracle)
    (now : Int) (e : CacheEntry)
    (hc : c ip = some e) (hb : e.isProxy.isSome = true) :
    (∀ q, (isProxyOrVPN ip c net now).cache q = c q) ∧
    (isProxyOrVPN ip c net now).cache ip = some e := by
  obtain ⟨b, hb2⟩ := Option.isSome_iff_exists.mp hb
  by_cases hip : ip = ""
  · subst hip
    refine ⟨fun q => ?_, ?_⟩
    · simp [isProxyOrVPN]
    · simpa [isProxyOrVPN] using hc
  · rw [isProxyOrVPN_memo_eq ip c net now e b hip hc hb2]
    exact ⟨fun q => rfl, hc⟩

/-- C10 witness: the frame theorem at the flagged 9.9.9.9 entry, checked at
a different key and at the queried key. -/
theorem isProxyOrVPN_memoized_frame_witness :
    (isProxyOrVPN "9.9.9.9" cacheProxyTrue (some (some ⟨some "yes", none⟩)) 5).cache "8.8.8.8"
      = cacheProxyTrue "8.8.8.8" ∧
    (isProxyOrVPN "9.9.9.9" cacheProxyTrue (some (some ⟨some "yes", none⟩)) 5).cache "9.9.9.9"
      = some ⟨some true, 0, 0⟩ :=
  ⟨(isProxyOrVPN_memoized_frame "9.9.9.9" cacheProxyTrue (some (some ⟨some "yes", none⟩)) 5
      ⟨some true, 0, 0⟩ (by decide) (by decide)).1 "8.8.8.8",
   (isProxyOrVPN_memoized_frame "9.9.9.9" cacheProxyTrue (some (some ⟨some "yes", none⟩)) 5
      ⟨some true, 0, 0⟩ (by decide) (by decide)).2⟩

end Skytalons
